import Mathlib

/-!
Verification of the client conversation session controller of the
v0-embed-zerowidth-agent chat widget (src/pages/index.js).

The embedding models:
* the Identity Store functions `getSessionId` / `getUserId` (storage scopes
  passed explicitly, the `uuidv4()` draw injected as an argument);
* the Request Controller `submitMessage`, split at its single `await`
  boundary into the synchronous prefix `submitMessageStart` (validation,
  optimistic user append, payload construction, issuing the fetch) and the
  continuation `submitMessageFinish` (response handling, catch, finally);
* the observable side effects as an explicit event trace (conversation
  appends and the outbound call), in source order.

JavaScript string primitives used by the source are modelled over the
character list backing a Lean `String`, because the corresponding Lean
library functions do not reduce inside the kernel:
* `jsTrim` models `String.prototype.trim` (strip leading/trailing whitespace);
* `stripDashes` models the hyphen-deleting regex replace;
* `jsSlice32` models `.slice(0, 32)` (keep the first 32 characters).
-/

/-- Models JavaScript `userInput.trim()`: remove leading and trailing
whitespace characters. -/
def jsTrim (s : String) : String :=
  ⟨((s.data.dropWhile Char.isWhitespace).reverse.dropWhile Char.isWhitespace).reverse⟩

/-- Models the regex replace applied to `uuidv4()` in the source: delete
every hyphen of the generated token. -/
def stripDashes (s : String) : String :=
  ⟨s.data.filter (fun c => c != '-')⟩

/-- Models `.slice(0, 32)` on a JavaScript string: keep at most the first
32 characters. -/
def jsSlice32 (s : String) : String :=
  ⟨s.data.take 32⟩

/-- Embeds `getSessionId` (src/pages/index.js lines 8-17).
`windowDefined` models `typeof window !== "undefined"`; `store` models the
value of `sessionStorage.getItem("sessionId")` (`none` = `null`); `uuid`
models the `uuidv4()` draw made if regeneration is needed.  Returns the
identifier handed to the caller together with the stored value of the
`sessionId` scope afterwards.  The source condition
`sessionId && sessionId.length <= 32 ? sessionId : null` keeps the stored
value exactly when it is truthy (a non-empty string) and of length at most
32; otherwise a fresh token is derived, persisted and returned. -/
def getSessionId (windowDefined : Bool) (store : Option String) (uuid : String) :
    String × Option String :=
  if windowDefined = false then ("", store)
  else
    let sessionId : Option String :=
      match store with
      | some v => if v ≠ "" ∧ v.length ≤ 32 then some v else none
      | none => none
    match sessionId with
    | some v => (v, store)
    | none =>
        let newId := jsSlice32 (stripDashes uuid)
        (newId, some newId)

/-- Embeds `getUserId` (src/pages/index.js lines 19-28): identical logic to
`getSessionId` but reading and writing the `userId` key of the durable
`localStorage` scope, which `store` models here. -/
def getUserId (windowDefined : Bool) (store : Option String) (uuid : String) :
    String × Option String :=
  if windowDefined = false then ("", store)
  else
    let userId : Option String :=
      match store with
      | some v => if v ≠ "" ∧ v.length ≤ 32 then some v else none
      | none => none
    match userId with
    | some v => (v, store)
    | none =>
        let newId := jsSlice32 (stripDashes uuid)
        (newId, some newId)

/-- A conversation entry, embedding the `userMessage` / `agentMessage`
object literals: a role string ("user" or "agent") and the content. -/
structure Message where
  role : String
  content : String
deriving DecidableEq, Repr

/-- The `data` field of the request payload: it carries exactly one
message, the newest user message. -/
structure PayloadData where
  message : Message
deriving DecidableEq, Repr

/-- Embeds the `payload` object literal of `submitMessage`
(src/pages/index.js lines 92-101). -/
structure Payload where
  data : PayloadData
  stateful : Bool
  stream : Bool
  user_id : String
  session_id : String
  verbose : Bool
deriving DecidableEq, Repr

/-- The `output_data` value of a parsed response body: its `content` field,
with `none` modelling an absent or `null` field. -/
structure AgentOutput where
  content : Option String
deriving DecidableEq, Repr

/-- A parsed JSON response body: `output_data`, with `none` modelling an
absent or `null` field. -/
structure ResponseBody where
  output_data : Option AgentOutput
deriving DecidableEq, Repr

/-- Embeds the `agentReply` computation
`data.output_data && data.output_data.content ? data.output_data.content
: "No valid response received from agent."` (src/pages/index.js lines
120-123).  JavaScript truthiness: an absent or `null` `output_data` is
falsy, a present object is truthy, and a string `content` is truthy iff it
is non-empty. -/
def agentReply (data : ResponseBody) : String :=
  match data.output_data with
  | some od =>
      match od.content with
      | some c => if c = "" then "No valid response received from agent." else c
      | none => "No valid response received from agent."
  | none => "No valid response received from agent."

/-- The component state mutated by `submitMessage`: the input draft
(`message`), the conversation log, the last error (`error`, `none` = no
error), the in-flight flag and the two identifiers held in component
state. -/
structure ComponentState where
  message : String
  conversation : List Message
  error : Option String
  isLoading : Bool
  userId : String
  sessionId : String
deriving DecidableEq, Repr

/-- An observable side effect of the controller, in the order the source
performs it: a user append, the outbound `fetch`, an agent append. -/
inductive Event where
  | appendUser (m : Message)
  | fetchIssued (p : Payload)
  | appendAgent (m : Message)
deriving DecidableEq, Repr

deriving instance DecidableEq for Except

/-- What the `await fetch` / `await res.json()` pair delivers back to the
controller: either the promise resolved with an HTTP status (`ok` is
`res.ok`, i.e. a 2xx status) and a body that parsed as JSON (`Except.ok`)
or failed to parse (`Except.error` with the parse failure message), or the
fetch rejected with a transport error carrying a message. -/
inductive FetchResult where
  | resolved (ok : Bool) (status : Nat) (body : Except String ResponseBody)
  | transportError (msg : String)
deriving DecidableEq, Repr

/-- Embeds the synchronous prefix of `submitMessage` (src/pages/index.js
lines 80-112), everything executed before the `await fetch` suspension:
the blank-input guard `if (!userInput.trim()) return`, clearing the draft
and the previous error, the optimistic user append, payload construction
from the current identifier state, setting `isLoading`, and issuing the
outbound call.  Returns the updated state and the trace of effects in
source order. -/
def submitMessageStart (s : ComponentState) (userInput : String) :
    ComponentState × List Event :=
  if jsTrim userInput = "" then (s, [])
  else
    let userMessage : Message := { role := "user", content := jsTrim userInput }
    let payload : Payload :=
      { data := { message := userMessage }
        stateful := true
        stream := false
        user_id := s.userId
        session_id := s.sessionId
        verbose := false }
    ({ s with
        message := ""
        error := none
        conversation := s.conversation ++ [userMessage]
        isLoading := true },
     [Event.appendUser userMessage, Event.fetchIssued payload])

/-- Embeds the continuation of `submitMessage` after the `await` boundary
(src/pages/index.js lines 114-137): the `res.ok` check throwing an error
whose message is `"Server error: " ++ toString res.status`, body parsing
via `res.json()`, the agent append
on success, the `catch` block storing `err.message` into the error state,
and the `finally` block resetting `isLoading` on every exit path. -/
def submitMessageFinish (s : ComponentState) (r : FetchResult) :
    ComponentState × List Event :=
  match r with
  | FetchResult.transportError msg =>
      ({ s with error := some msg, isLoading := false }, [])
  | FetchResult.resolved ok status body =>
      if ok = false then
        ({ s with
            error := some ("Server error: " ++ toString status)
            isLoading := false }, [])
      else
        match body with
        | Except.error msg =>
            ({ s with error := some msg, isLoading := false }, [])
        | Except.ok data =>
            let agentMessage : Message := { role := "agent", content := agentReply data }
            ({ s with
                conversation := s.conversation ++ [agentMessage]
                message := ""
                isLoading := false },
             [Event.appendAgent agentMessage])

/-! Helper lemmas about the string primitives and a sample state used by
witnesses. -/

/-- A concrete idle component state used to instantiate the theorems. -/
def sampleState : ComponentState :=
  { message := ""
    conversation := []
    error := none
    isLoading := false
    userId := "u1"
    sessionId := "sess1" }

lemma jsSlice32_length_le (s : String) : (jsSlice32 s).length ≤ 32 := by
  have h : (jsSlice32 s).length = (s.data.take 32).length := rfl
  rw [h, List.length_take]
  exact Nat.min_le_left _ _

lemma jsSlice32_ne_empty (s : String) (h : s ≠ "") : jsSlice32 s ≠ "" := by
  intro hcon
  have hdata : s.data.take 32 = [] := congrArg String.data hcon
  rcases hs : s.data with _ | ⟨a, as⟩
  · exact h (by cases s; simp_all)
  · rw [hs] at hdata
    simp [List.take] at hdata

lemma jsSlice32_length_eq (s : String) (h : s.length = 32) :
    (jsSlice32 s).length = 32 := by
  have h2 : (jsSlice32 s).length = (s.data.take 32).length := rfl
  have h3 : s.length = s.data.length := rfl
  rw [h2, List.length_take, ← h3, h]
  simp

lemma length_eq_ne_empty (s : String) (h : s.length = 32) : s ≠ "" := by
  intro hcon
  rw [hcon] at h
  simp [String.length] at h

/-- C5: for every blank or whitespace-only input, submit is a complete
no-op: the state (conversation, isLoading, lastError, draft) is unchanged
and no event — neither an append nor a network call — occurs. -/
theorem C5_blank_input_noop (s : ComponentState) (input : String)
    (h : jsTrim input = "") : submitMessageStart s input = (s, []) := by
  simp [submitMessageStart, h]

theorem C5_blank_input_noop_witness :
    jsTrim "   " = "" ∧ submitMessageStart sampleState "   " = (sampleState, []) :=
  ⟨by decide, C5_blank_input_noop sampleState "   " (by decide)⟩

/-- C4: for every non-blank input, submit appends exactly one user Message
holding the trimmed input, and then issues exactly one outbound call whose
body is exactly the payload carrying only that newest message plus the
fixed flags and the current identifiers. -/
theorem C4_user_append_then_single_fetch (s : ComponentState) (input : String)
    (h : jsTrim input ≠ "") :
    (submitMessageStart s input).1.conversation =
      s.conversation ++ [{ role := "user", content := jsTrim input }] ∧
    (submitMessageStart s input).2 =
      [Event.appendUser { role := "user", content := jsTrim input },
       Event.fetchIssued
         { data := { message := { role := "user", content := jsTrim input } }
           stateful := true
           stream := false
           user_id := s.userId
           session_id := s.sessionId
           verbose := false }] := by
  constructor <;> simp [submitMessageStart, h]

theorem C4_user_append_then_single_fetch_witness :
    jsTrim "hello" ≠ "" ∧
    (submitMessageStart sampleState "hello").2 =
      [Event.appendUser { role := "user", content := "hello" },
       Event.fetchIssued
         { data := { message := { role := "user", content := "hello" } }
           stateful := true
           stream := false
           user_id := "u1"
           session_id := "sess1"
           verbose := false }] :=
  ⟨by decide, (C4_user_append_then_single_fetch sampleState "hello" (by decide)).2⟩

/-- C6: for every validated submit invocation, isLoading is set while the
submission is in flight and is false after the continuation runs, on every
exit path: success, parse failure, non-2xx status, or transport error. -/
theorem C6_isLoading_reset_on_every_exit (s : ComponentState) (input : String)
    (h : jsTrim input ≠ "") :
    (submitMessageStart s input).1.isLoading = true ∧
    ∀ r : FetchResult,
      (submitMessageFinish (submitMessageStart s input).1 r).1.isLoading = false := by
  constructor
  · simp [submitMessageStart, h]
  · intro r
    rcases r with ⟨ok, status, body⟩ | msg
    · rcases ok <;> rcases body with msg | data <;> simp [submitMessageFinish]
    · simp [submitMessageFinish]

theorem C6_isLoading_reset_on_every_exit_witness :
    jsTrim "hello" ≠ "" ∧
    (submitMessageFinish (submitMessageStart sampleState "hello").1
      (FetchResult.transportError "network down")).1.isLoading = false :=
  ⟨by decide,
   (C6_isLoading_reset_on_every_exit sampleState "hello" (by decide)).2
     (FetchResult.transportError "network down")⟩

/-- C9: outside a client execution context both identity reads return the
empty string and leave their storage scopes untouched: no write occurs and
no stored value is required. -/
theorem C9_no_client_context_noop (sstore ustore : Option String) (u1 u2 : String) :
    getSessionId false sstore u1 = ("", sstore) ∧
    getUserId false ustore u2 = ("", ustore) := by
  constructor <;> simp [getSessionId, getUserId]

/-- After any client-context read of the session scope whose fresh token is
non-empty, the scope holds exactly the returned identifier, which is
non-empty and at most 32 characters long. -/
lemma getSessionId_valid_after (store : Option String) (u : String)
    (h : stripDashes u ≠ "") :
    ∃ v, getSessionId true store u = (v, some v) ∧ v ≠ "" ∧ v.length ≤ 32 := by
  rcases store with _ | v
  · exact ⟨jsSlice32 (stripDashes u), by simp [getSessionId],
      jsSlice32_ne_empty _ h, jsSlice32_length_le _⟩
  · by_cases hv : v ≠ "" ∧ v.length ≤ 32
    · exact ⟨v, by simp [getSessionId, hv], hv.1, hv.2⟩
    · exact ⟨jsSlice32 (stripDashes u), by simp [getSessionId, hv],
        jsSlice32_ne_empty _ h, jsSlice32_length_le _⟩

/-- Reading the session scope returns a stored valid identifier unchanged. -/
lemma getSessionId_of_valid (v u : String) (h1 : v ≠ "") (h2 : v.length ≤ 32) :
    getSessionId true (some v) u = (v, some v) := by
  simp [getSessionId, h1, h2]

/-- After any client-context read of the user scope whose fresh token is
non-empty, the scope holds exactly the returned identifier, which is
non-empty and at most 32 characters long. -/
lemma getUserId_valid_after (store : Option String) (u : String)
    (h : stripDashes u ≠ "") :
    ∃ v, getUserId true store u = (v, some v) ∧ v ≠ "" ∧ v.length ≤ 32 := by
  rcases store with _ | v
  · exact ⟨jsSlice32 (stripDashes u), by simp [getUserId],
      jsSlice32_ne_empty _ h, jsSlice32_length_le _⟩
  · by_cases hv : v ≠ "" ∧ v.length ≤ 32
    · exact ⟨v, by simp [getUserId, hv], hv.1, hv.2⟩
    · exact ⟨jsSlice32 (stripDashes u), by simp [getUserId, hv],
        jsSlice32_ne_empty _ h, jsSlice32_length_le _⟩

/-- Reading the user scope returns a stored valid identifier unchanged. -/
lemma getUserId_of_valid (v u : String) (h1 : v ≠ "") (h2 : v.length ≤ 32) :
    getUserId true (some v) u = (v, some v) := by
  simp [getUserId, h1, h2]

/-- C7: identity reads are idempotent within a scope: reading the session
(resp. user) scope twice without the storage being cleared or modified in
between returns the same identifier both times, in any execution context,
provided the generator tokens are non-empty as uuidv4 draws always are. -/
theorem C7_identity_reads_idempotent (w : Bool) (sstore ustore : Option String)
    (u1 u2 u3 u4 : String)
    (h1 : stripDashes u1 ≠ "") (h3 : stripDashes u3 ≠ "") :
    (getSessionId w (getSessionId w sstore u1).2 u2).1 = (getSessionId w sstore u1).1 ∧
    (getUserId w (getUserId w ustore u3).2 u4).1 = (getUserId w ustore u3).1 := by
  rcases w
  · simp [getSessionId, getUserId]
  · constructor
    · obtain ⟨v, heq, hne, hle⟩ := getSessionId_valid_after sstore u1 h1
      rw [heq, getSessionId_of_valid v u2 hne hle]
    · obtain ⟨v, heq, hne, hle⟩ := getUserId_valid_after ustore u3 h3
      rw [heq, getUserId_of_valid v u4 hne hle]

theorem C7_identity_reads_idempotent_witness :
    stripDashes "11-aa" ≠ "" ∧ stripDashes "55-cc" ≠ "" ∧
    (getSessionId true (getSessionId true none "11-aa").2 "33-bb").1 =
      (getSessionId true none "11-aa").1 ∧
    (getUserId true (getUserId true none "55-cc").2 "77-dd").1 =
      (getUserId true none "55-cc").1 :=
  ⟨by decide, by decide,
   (C7_identity_reads_idempotent true none none "11-aa" "33-bb" "55-cc" "77-dd"
     (by decide) (by decide)).1,
   (C7_identity_reads_idempotent true none none "11-aa" "33-bb" "55-cc" "77-dd"
     (by decide) (by decide)).2⟩

/-- C8: if the stored identifier of a scope exceeds 32 characters, the next
read of that scope regenerates: it derives a fresh identifier of length at
most 32 from the random token, persists it to the scope, and returns it. -/
theorem C8_overlong_id_regenerated (sv uv u1 u2 : String)
    (hs : 32 < sv.length) (hu : 32 < uv.length) :
    getSessionId true (some sv) u1 =
      (jsSlice32 (stripDashes u1), some (jsSlice32 (stripDashes u1))) ∧
    (jsSlice32 (stripDashes u1)).length ≤ 32 ∧
    getUserId true (some uv) u2 =
      (jsSlice32 (stripDashes u2), some (jsSlice32 (stripDashes u2))) ∧
    (jsSlice32 (stripDashes u2)).length ≤ 32 := by
  have hns : ¬(sv ≠ "" ∧ sv.length ≤ 32) := by
    rintro ⟨-, hle⟩
    omega
  have hnu : ¬(uv ≠ "" ∧ uv.length ≤ 32) := by
    rintro ⟨-, hle⟩
    omega
  exact ⟨by simp [getSessionId, hns], jsSlice32_length_le _,
    by simp [getUserId, hnu], jsSlice32_length_le _⟩

theorem C8_overlong_id_regenerated_witness :
    32 < "aaaaaaaaaaaaaaaaaaaaaaaaaaaaaaaaa".length ∧
    getSessionId true (some "aaaaaaaaaaaaaaaaaaaaaaaaaaaaaaaaa") "11-aa" =
      (jsSlice32 (stripDashes "11-aa"), some (jsSlice32 (stripDashes "11-aa"))) ∧
    getUserId true (some "aaaaaaaaaaaaaaaaaaaaaaaaaaaaaaaaa") "55-cc" =
      (jsSlice32 (stripDashes "55-cc"), some (jsSlice32 (stripDashes "55-cc"))) :=
  ⟨by decide,
   (C8_overlong_id_regenerated "aaaaaaaaaaaaaaaaaaaaaaaaaaaaaaaaa"
     "aaaaaaaaaaaaaaaaaaaaaaaaaaaaaaaaa" "11-aa" "55-cc" (by decide) (by decide)).1,
   (C8_overlong_id_regenerated "aaaaaaaaaaaaaaaaaaaaaaaaaaaaaaaaa"
     "aaaaaaaaaaaaaaaaaaaaaaaaaaaaaaaaa" "11-aa" "55-cc" (by decide) (by decide)).2.2.1⟩

/-- C10: in a client context both identity reads return a non-empty
identifier of length at most 32, for any stored value; in particular a
stored empty string is treated as absent and replaced by a freshly
generated, persisted 32-character identifier, given that the stripped
random token has the 32 characters a uuidv4 draw always yields. -/
theorem C10_client_ids_nonempty_bounded (sstore ustore : Option String)
    (u1 u2 : String)
    (h1 : (stripDashes u1).length = 32) (h2 : (stripDashes u2).length = 32) :
    ((getSessionId true sstore u1).1 ≠ "" ∧
      (getSessionId true sstore u1).1.length ≤ 32) ∧
    (sstore = some "" →
      getSessionId true sstore u1 =
        (jsSlice32 (stripDashes u1), some (jsSlice32 (stripDashes u1))) ∧
      (jsSlice32 (stripDashes u1)).length = 32) ∧
    ((getUserId true ustore u2).1 ≠ "" ∧
      (getUserId true ustore u2).1.length ≤ 32) ∧
    (ustore = some "" →
      getUserId true ustore u2 =
        (jsSlice32 (stripDashes u2), some (jsSlice32 (stripDashes u2))) ∧
      (jsSlice32 (stripDashes u2)).length = 32) := by
  have h1ne : stripDashes u1 ≠ "" := length_eq_ne_empty _ h1
  have h2ne : stripDashes u2 ≠ "" := length_eq_ne_empty _ h2
  refine ⟨?_, ?_, ?_, ?_⟩
  · obtain ⟨v, heq, hne, hle⟩ := getSessionId_valid_after sstore u1 h1ne
    rw [heq]
    exact ⟨hne, hle⟩
  · rintro rfl
    exact ⟨by simp [getSessionId], jsSlice32_length_eq _ h1⟩
  · obtain ⟨v, heq, hne, hle⟩ := getUserId_valid_after ustore u2 h2ne
    rw [heq]
    exact ⟨hne, hle⟩
  · rintro rfl
    exact ⟨by simp [getUserId], jsSlice32_length_eq _ h2⟩

theorem C10_client_ids_nonempty_bounded_witness :
    (stripDashes "123e4567-e89b-12d3-a456-426614174000").length = 32 ∧
    getSessionId true (some "") "123e4567-e89b-12d3-a456-426614174000" =
      (jsSlice32 (stripDashes "123e4567-e89b-12d3-a456-426614174000"),
       some (jsSlice32 (stripDashes "123e4567-e89b-12d3-a456-426614174000"))) ∧
    (getUserId true (some "") "123e4567-e89b-12d3-a456-426614174001").1 ≠ "" :=
  ⟨by decide,
   ((C10_client_ids_nonempty_bounded (some "") (some "")
      "123e4567-e89b-12d3-a456-426614174000" "123e4567-e89b-12d3-a456-426614174001"
      (by decide) (by decide)).2.1 rfl).1,
   ((C10_client_ids_nonempty_bounded (some "") (some "")
      "123e4567-e89b-12d3-a456-426614174000" "123e4567-e89b-12d3-a456-426614174001"
      (by decide) (by decide)).2.2.1).1⟩

/-- A non-2xx status always yields a non-empty error description. -/
lemma server_error_ne_empty (t : String) : "Server error: " ++ t ≠ "" := by
  intro h
  have h2 : ("Server error: " ++ t).data = [] := congrArg String.data h
  rw [String.data_append] at h2
  simp at h2

/-- C1 counterexample: the controller does not serialize submissions.
Starting a first submission leaves the component in flight
(`isLoading = true`, its continuation not yet run), and invoking submit
again in that very state is not rejected: the second invocation appends its
user Message and issues its own network call before the first submission
has resolved, so the serialization claimed for the controller itself does
not hold. -/
theorem C1_counterexample :
    (submitMessageStart sampleState "first").1.isLoading = true ∧
    (submitMessageStart (submitMessageStart sampleState "first").1 "second").1.conversation =
      [{ role := "user", content := "first" }, { role := "user", content := "second" }] ∧
    (submitMessageStart (submitMessageStart sampleState "first").1 "second").2 =
      [Event.appendUser { role := "user", content := "second" },
       Event.fetchIssued
         { data := { message := { role := "user", content := "second" } }
           stateful := true
           stream := false
           user_id := "u1"
           session_id := "sess1"
           verbose := false }] := by
  decide

/-- C1 (amended): the controller itself enforces no serialization: a submit
invocation with non-blank input made while a submission is in flight
(`isLoading = true`) proceeds exactly as usual — it appends its user
Message and issues its own network call; at most one submission in flight
holds only insofar as the presentation layer withholds submit invocations
while `isLoading` is true. -/
theorem C1_no_controller_guard (s : ComponentState) (input : String)
    (_hload : s.isLoading = true) (hin : jsTrim input ≠ "") :
    (submitMessageStart s input).1.conversation =
      s.conversation ++ [{ role := "user", content := jsTrim input }] ∧
    (submitMessageStart s input).2 =
      [Event.appendUser { role := "user", content := jsTrim input },
       Event.fetchIssued
         { data := { message := { role := "user", content := jsTrim input } }
           stateful := true
           stream := false
           user_id := s.userId
           session_id := s.sessionId
           verbose := false }] := by
  constructor <;> simp [submitMessageStart, hin]

theorem C1_no_controller_guard_witness :
    ({ sampleState with isLoading := true } : ComponentState).isLoading = true ∧
    jsTrim "second" ≠ "" ∧
    (submitMessageStart { sampleState with isLoading := true } "second").2 ≠ [] := by
  refine ⟨rfl, by decide, ?_⟩
  rw [(C1_no_controller_guard { sampleState with isLoading := true } "second"
    rfl (by decide)).2]
  decide

/-- C2 counterexample: a 2xx response whose `output_data.content` field is
present and non-null but equal to the empty string does not yield an agent
Message carrying that field's value: JavaScript truthiness makes the code
substitute the fallback text instead, refuting the claim that the content
is echoed whenever the field is present and non-null. -/
theorem C2_counterexample :
    (submitMessageFinish (submitMessageStart sampleState "hello").1
      (FetchResult.resolved true 200
        (Except.ok { output_data := some { content := some "" } }))).1.conversation =
      [{ role := "user", content := "hello" },
       { role := "agent", content := "No valid response received from agent." }] ∧
    "No valid response received from agent." ≠ "" := by
  decide

/-- C2 (amended): on a successful parsed 2xx response the controller
appends exactly one agent Message; its content equals `output_data.content`
whenever that field is present, non-null and non-empty, and equals the
fallback string "No valid response received from agent." otherwise — when
`output_data` is absent, when `content` is absent or null, and also when
`content` is present but the empty string. -/
theorem C2_success_reply (s : ComponentState) (status : Nat) (data : ResponseBody) :
    (∀ od c, data.output_data = some od → od.content = some c → c ≠ "" →
      submitMessageFinish s (FetchResult.resolved true status (Except.ok data)) =
        ({ s with
            conversation := s.conversation ++ [{ role := "agent", content := c }]
            message := ""
            isLoading := false },
         [Event.appendAgent { role := "agent", content := c }])) ∧
    ((data.output_data = none ∨
      (∃ od, data.output_data = some od ∧ (od.content = none ∨ od.content = some ""))) →
      submitMessageFinish s (FetchResult.resolved true status (Except.ok data)) =
        ({ s with
            conversation := s.conversation ++
              [{ role := "agent", content := "No valid response received from agent." }]
            message := ""
            isLoading := false },
         [Event.appendAgent
            { role := "agent", content := "No valid response received from agent." }])) := by
  constructor
  · intro od c hod hc hne
    simp [submitMessageFinish, agentReply, hod, hc, hne]
  · rintro (hnone | ⟨od, hod, hc | hc⟩) <;>
      simp [submitMessageFinish, agentReply, *]

theorem C2_success_reply_witness :
    submitMessageFinish sampleState
      (FetchResult.resolved true 200
        (Except.ok { output_data := some { content := some "hi there" } })) =
      ({ sampleState with
          conversation := [{ role := "agent", content := "hi there" }]
          message := ""
          isLoading := false },
       [Event.appendAgent { role := "agent", content := "hi there" }]) := by
  have h := (C2_success_reply sampleState 200
      { output_data := some { content := some "hi there" } }).1
      { content := some "hi there" } "hi there" rfl rfl (by decide)
  simpa [sampleState] using h

/-- C3: on any failure of a validated submission — transport failure with a
non-empty message, or a non-2xx response status — no agent Message is
appended (the continuation emits no event), the optimistically appended
user Message remains in the conversation, and the error state is set to a
non-empty string carrying the cause: exactly
"Server error: " followed by the decimal status for a non-2xx response,
and the transport error message itself for a transport failure. -/
theorem C3_failure_sets_error_keeps_user (s : ComponentState) (input : String)
    (r : FetchResult) (hin : jsTrim input ≠ "")
    (hr : (∃ status body, r = FetchResult.resolved false status body) ∨
          (∃ msg, msg ≠ "" ∧ r = FetchResult.transportError msg)) :
    (submitMessageFinish (submitMessageStart s input).1 r).1.conversation =
      s.conversation ++ [{ role := "user", content := jsTrim input }] ∧
    (submitMessageFinish (submitMessageStart s input).1 r).2 = [] ∧
    ∃ m, (submitMessageFinish (submitMessageStart s input).1 r).1.error = some m ∧
      m ≠ "" ∧
      (∀ status body, r = FetchResult.resolved false status body →
        m = "Server error: " ++ toString status) ∧
      (∀ msg, r = FetchResult.transportError msg → m = msg) := by
  rcases hr with ⟨status, body, rfl⟩ | ⟨msg, hmsg, rfl⟩
  · refine ⟨by simp [submitMessageStart, submitMessageFinish, hin],
      by simp [submitMessageFinish],
      "Server error: " ++ toString status,
      by simp [submitMessageFinish], server_error_ne_empty _, ?_, ?_⟩
    · intro status' body' heq
      cases heq
      rfl
    · intro msg heq
      simp at heq
  · refine ⟨by simp [submitMessageStart, submitMessageFinish, hin],
      by simp [submitMessageFinish],
      msg, by simp [submitMessageFinish], hmsg, ?_, ?_⟩
    · intro status' body' heq
      simp at heq
    · intro msg' heq
      cases heq
      rfl

theorem C3_failure_sets_error_keeps_user_witness :
    jsTrim "hello" ≠ "" ∧
    (submitMessageFinish (submitMessageStart sampleState "hello").1
      (FetchResult.resolved false 500 (Except.ok { output_data := none }))).1.conversation =
      [{ role := "user", content := "hello" }] ∧
    (submitMessageFinish (submitMessageStart sampleState "hello").1
      (FetchResult.resolved false 500 (Except.ok { output_data := none }))).1.error =
      some "Server error: 500" := by
  have h := C3_failure_sets_error_keeps_user sampleState "hello"
    (FetchResult.resolved false 500 (Except.ok { output_data := none }))
    (by decide) (Or.inl ⟨500, Except.ok { output_data := none }, rfl⟩)
  obtain ⟨hconv, -, m, hm, -, himp, -⟩ := h
  refine ⟨by decide, by simpa [sampleState] using hconv, ?_⟩
  rw [hm, himp 500 (Except.ok { output_data := none }) rfl]
  rfl
